import Mathlib

/-!
# Verification of `src/arp.c` (arp-raw-tap)

A shallow embedding of the ARP tap demo: the byte-exact Ethernet+ARP frame
layout (`struct arp_packet`), the responder engine (`wait_n_reply`), the
requester engine (`req_n_wait`) and the `main` driver, together with proofs
of the specification's claims about them.

Bytes are modelled as `Nat` (well-formedness bounds them below 256), MAC and
IPv4 addresses as byte lists, and 16-bit big-endian wire fields as `Nat`
bounded below 65536.  Fallible transport operations (read/write/ioctl) are
modelled by explicit result traces; the `ASSERT` macro's `perror(tag);
exit(1)` becomes an `ExitStatus.fatal 1 tag` outcome.
-/

namespace ArpTap

/-- `ETHER_ADDR_LEN` from `<net/ethernet.h>`. -/
def ETHER_ADDR_LEN : Nat := 6

/-- `INET_ADDR_LEN` from `src/arp.c` line 35. -/
def INET_ADDR_LEN : Nat := 4

/-- `ETH_P_ARP` from `<linux/if_ether.h>`: the ARP ethertype. -/
def ETH_P_ARP : Nat := 0x0806

/-- `ETH_P_802_3` from `<linux/if_ether.h>` (value 1), used by the source for
the ARP hardware-address-space field. -/
def ETH_P_802_3 : Nat := 0x0001

/-- `ARPHRD_ETHER` from `<linux/if_arp.h>`: the standard ARP hardware-address
space identifier for Ethernet (value 1). -/
def ARPHRD_ETHER : Nat := 1

/-- `ETH_P_IP` from `<linux/if_ether.h>`: the standard IPv4 identifier. -/
def ETH_P_IP : Nat := 0x0800

/-- `ARPOP_REQUEST` from `<linux/if_arp.h>`. -/
def ARPOP_REQUEST : Nat := 1

/-- `ARPOP_REPLY` from `<linux/if_arp.h>`. -/
def ARPOP_REPLY : Nat := 2

/-- `DEVICE_IP "172.16.60.250"` after `inet_pton`, as the four address bytes. -/
def DEVICE_IP : List Nat := [172, 16, 60, 250]

/-- `TARGET_IP "172.16.60.157"` after `inet_pton`, as the four address bytes. -/
def TARGET_IP : List Nat := [172, 16, 60, 157]

/-- `struct ethhdr` from `<linux/if_ether.h>`: destination MAC, source MAC,
ethertype.  The 2-byte `h_proto` is kept as its host-order value; big-endian
conversion happens in the codec. -/
structure ethhdr where
  h_dest : List Nat
  h_source : List Nat
  h_proto : Nat
  deriving Repr, DecidableEq

/-- `struct arp_hdr` from `src/arp.c` lines 49-59. -/
structure arp_hdr where
  arp_hd : Nat
  arp_pr : Nat
  arp_hdl : Nat
  arp_prl : Nat
  arp_op : Nat
  arp_sha : List Nat
  arp_spa : List Nat
  arp_dha : List Nat
  arp_dpa : List Nat
  deriving Repr, DecidableEq

/-- `struct arp_packet` from `src/arp.c` lines 62-65: Ethernet header followed
by the ARP header, packed, no padding. -/
structure arp_packet where
  ethhdr : ethhdr
  arphdr : arp_hdr
  deriving Repr, DecidableEq

/-- Serialize a 16-bit value big-endian (network byte order), as
`__cpu_to_be16` followed by storing the two bytes. -/
def be16 (v : Nat) : List Nat := [v / 256, v % 256]

/-- Read a 16-bit big-endian value at byte offset `i` of a buffer (missing
bytes read as 0). -/
def readBE16 (bs : List Nat) (i : Nat) : Nat :=
  256 * bs.getD i 0 + bs.getD (i + 1) 0

/-- `n` bytes of a buffer starting at offset `i`. -/
def slice (bs : List Nat) (i n : Nat) : List Nat := (bs.drop i).take n

/-- `sizeof(struct arp_packet)`: 14-byte Ethernet header + 28-byte ARP
header, packed. -/
def FRAME_SIZE : Nat := 42

/-- `encode`: the exact wire layout of `struct arp_packet` — the byte
sequence `write` puts on the tap device. -/
def encode (p : arp_packet) : List Nat :=
  p.ethhdr.h_dest ++ p.ethhdr.h_source ++ be16 p.ethhdr.h_proto ++
  be16 p.arphdr.arp_hd ++ be16 p.arphdr.arp_pr ++
  [p.arphdr.arp_hdl, p.arphdr.arp_prl] ++ be16 p.arphdr.arp_op ++
  p.arphdr.arp_sha ++ p.arphdr.arp_spa ++ p.arphdr.arp_dha ++ p.arphdr.arp_dpa

/-- `decode`: reinterpreting a raw buffer as a `struct arp_packet`, exactly
as the cast `(struct arp_packet *)pckt_buf` reads the packed fields. -/
def decode (bs : List Nat) : arp_packet :=
  { ethhdr :=
      { h_dest := slice bs 0 6
        h_source := slice bs 6 6
        h_proto := readBE16 bs 12 }
    arphdr :=
      { arp_hd := readBE16 bs 14
        arp_pr := readBE16 bs 16
        arp_hdl := bs.getD 18 0
        arp_prl := bs.getD 19 0
        arp_op := readBE16 bs 20
        arp_sha := slice bs 22 6
        arp_spa := slice bs 28 4
        arp_dha := slice bs 32 6
        arp_dpa := slice bs 38 4 } }

/-- A well-formed frame: address fields have their fixed lengths, every byte
fits in an octet, and every 2-byte field fits in 16 bits (1-byte fields in 8
bits), matching the packed C struct's field widths. -/
def WellFormed (p : arp_packet) : Prop :=
  p.ethhdr.h_dest.length = 6 ∧ (∀ b ∈ p.ethhdr.h_dest, b < 256) ∧
  p.ethhdr.h_source.length = 6 ∧ (∀ b ∈ p.ethhdr.h_source, b < 256) ∧
  p.ethhdr.h_proto < 65536 ∧
  p.arphdr.arp_hd < 65536 ∧ p.arphdr.arp_pr < 65536 ∧
  p.arphdr.arp_hdl < 256 ∧ p.arphdr.arp_prl < 256 ∧
  p.arphdr.arp_op < 65536 ∧
  p.arphdr.arp_sha.length = 6 ∧ (∀ b ∈ p.arphdr.arp_sha, b < 256) ∧
  p.arphdr.arp_spa.length = 4 ∧ (∀ b ∈ p.arphdr.arp_spa, b < 256) ∧
  p.arphdr.arp_dha.length = 6 ∧ (∀ b ∈ p.arphdr.arp_dha, b < 256) ∧
  p.arphdr.arp_dpa.length = 4 ∧ (∀ b ∈ p.arphdr.arp_dpa, b < 256)

instance (p : arp_packet) : Decidable (WellFormed p) := by
  unfold WellFormed; infer_instance

/-! ## Responder engine: `wait_n_reply` (src/arp.c lines 102-149) -/

/-- Lines 120-141 of `wait_n_reply`: build the reply from the request.  The
whole request is first copied (`memcpy`, line 120, "to keep same fields in
place"), then the Ethernet source/destination, the opcode, and the four ARP
addresses are overwritten.  `mac` is the local hardware address, `recv_ip`
is the request's ARP target protocol address (`arp_dpa`). -/
def craft_reply (mac : List Nat) (req : arp_packet) : arp_packet :=
  { ethhdr :=
      { req.ethhdr with
          h_source := mac
          h_dest := req.arphdr.arp_sha }
    arphdr :=
      { req.arphdr with
          arp_op := ARPOP_REPLY
          arp_sha := mac
          arp_spa := req.arphdr.arp_dpa
          arp_dha := req.arphdr.arp_sha
          arp_dpa := req.arphdr.arp_spa } }

/-- One successful-read iteration of the `wait_n_reply` loop, acting on the
raw 1500-byte stack buffer `pckt_buf` and the diagnostic counter `num`.
Line 111 drops every buffer whose ethertype bytes are not ARP (no counter
change, no reply); otherwise the buffer is reinterpreted as an
`arp_packet`, `num` is incremented (line 144) and a reply is crafted to be
written back.  There is no length check anywhere. -/
def wait_n_reply_step (mac : List Nat) (num : Nat) (pckt_buf : List Nat) :
    Nat × Option arp_packet :=
  if readBE16 pckt_buf 12 ≠ ETH_P_ARP then (num, none)
  else (num + 1, some (craft_reply mac (decode pckt_buf)))

/-- Process exit outcomes.  `fatal code tag` is the `ASSERT` macro
(lines 43-47): `perror(tag); exit(code)` with `code = 1`. `normal` is
returning from the engine into `main`'s `close`/return-0 path. `running`
means the engine is still in its loop when the modelled event trace ends. -/
inductive ExitStatus where
  | running : ExitStatus
  | normal : ExitStatus
  | fatal : Nat → String → ExitStatus
  deriving Repr, DecidableEq

/-- One transport event of the responder loop: either `read` fails
(returns < 0), or it yields a raw buffer and the subsequent `write` of a
reply — if one is attempted — succeeds iff `sendOk`. -/
inductive TraceEv where
  | recvErr : TraceEv
  | recvOk : List Nat → Bool → TraceEv
  deriving Repr, DecidableEq

/-- The `wait_n_reply` loop (lines 106-148) over a finite trace of transport
events.  Returns the frames passed to `write`, the final value of the
`static int num` counter, and the exit status.  A failed `read` or `write`
hits `ASSERT` and the process dies at once; the loop itself has no normal
exit. -/
def wait_n_reply_run (mac : List Nat) (num : Nat) :
    List TraceEv → List arp_packet × Nat × ExitStatus
  | [] => ([], num, ExitStatus.running)
  | TraceEv.recvErr :: _ => ([], num, ExitStatus.fatal 1 "read packet")
  | TraceEv.recvOk buf sOk :: rest =>
    if readBE16 buf 12 ≠ ETH_P_ARP then wait_n_reply_run mac num rest
    else
      let rep := craft_reply mac (decode buf)
      if sOk then
        let r := wait_n_reply_run mac (num + 1) rest
        (rep :: r.1, r.2)
      else ([rep], num + 1, ExitStatus.fatal 1 "write packet")

/-! ## Requester engine: `req_n_wait` (src/arp.c lines 151-195) -/

/-- Lines 157-175: the single broadcast request frame built by `req_n_wait`
from the local hardware address `mac` and the configured IPv4 literals. -/
def req_n_wait_request (mac : List Nat) : arp_packet :=
  { ethhdr :=
      { h_proto := ETH_P_ARP
        h_source := mac
        h_dest := List.replicate ETHER_ADDR_LEN 0xff }
    arphdr :=
      { arp_hd := ETH_P_802_3
        arp_pr := ETH_P_IP
        arp_hdl := ETHER_ADDR_LEN
        arp_prl := INET_ADDR_LEN
        arp_op := ARPOP_REQUEST
        arp_sha := mac
        arp_spa := DEVICE_IP
        arp_dha := List.replicate ETHER_ADDR_LEN 0xff
        arp_dpa := TARGET_IP } }

/-- Result of one `read` in the requester's wait loop. -/
inductive RecvResult where
  | err : RecvResult
  | ok : List Nat → RecvResult
  deriving Repr, DecidableEq

/-- Outcome of a `req_n_wait` run: the frames passed to `write`, the frame
accepted (decoded and printed) by the wait loop if any, and the exit
status. -/
structure ReqRun where
  sent : List arp_packet
  accepted : Option arp_packet
  exit : ExitStatus
  deriving Repr, DecidableEq

/-- The wait loop of `req_n_wait` (lines 182-194): read frames, skip any
whose ethertype is not ARP, and `break` (normal return) on the first ARP
buffer, which is decoded and printed.  No write occurs in the loop. -/
def req_n_wait_loop : List RecvResult → Option arp_packet × ExitStatus
  | [] => (none, ExitStatus.running)
  | RecvResult.err :: _ => (none, ExitStatus.fatal 1 "read packet")
  | RecvResult.ok buf :: rest =>
    if readBE16 buf 12 ≠ ETH_P_ARP then req_n_wait_loop rest
    else (some (decode buf), ExitStatus.normal)

/-- A full `req_n_wait` run: build the request, `write` it (line 180; a
failed write is fatal before any read), then run the wait loop.  `sendOk`
is the result of that single write; `recvs` the results of the loop's
reads. -/
def req_n_wait_run (mac : List Nat) (sendOk : Bool) (recvs : List RecvResult) :
    ReqRun :=
  if sendOk then
    let r := req_n_wait_loop recvs
    { sent := [req_n_wait_request mac], accepted := r.1, exit := r.2 }
  else
    { sent := [req_n_wait_request mac], accepted := none
      exit := ExitStatus.fatal 1 "write packet" }

/-! ## `main` (src/arp.c lines 197-213) -/

/-- The engine `main` dispatches to (line 209: `MODE` selects `req_n_wait`
or `wait_n_reply`), together with that engine's transport-event trace. -/
inductive EngineTrace where
  | responder : List TraceEv → EngineTrace
  | requester : Bool → List RecvResult → EngineTrace

/-- `main`: open `/dev/net/tun`, `TUNSETIFF`, `SIOCGIFHWADDR` — each checked
by `ASSERT` with its own tag — then run the selected engine with the
queried hardware address; on engine return, `close` and exit normally.
Returns the frames written and the exit status. -/
def main_run (openOk setOk hwOk : Bool) (mac : List Nat) (tr : EngineTrace) :
    List arp_packet × ExitStatus :=
  if !openOk then ([], ExitStatus.fatal 1 "tap open")
  else if !setOk then ([], ExitStatus.fatal 1 "tap ioctl")
  else if !hwOk then ([], ExitStatus.fatal 1 "tap hwaddr")
  else
    match tr with
    | EngineTrace.responder evs =>
      let r := wait_n_reply_run mac 0 evs
      (r.1, r.2.2)
    | EngineTrace.requester sOk recvs =>
      let r := req_n_wait_run mac sOk recvs
      (r.sent, if r.exit = ExitStatus.normal then ExitStatus.normal else r.exit)

/-! ## Helper lemmas -/

theorem exists_len_six (l : List Nat) (h : l.length = 6) :
    ∃ a b c d e f, l = [a, b, c, d, e, f] := by
  rcases l with _ | ⟨a, _ | ⟨b, _ | ⟨c, _ | ⟨d, _ | ⟨e, _ | ⟨f, _ | ⟨g, t⟩⟩⟩⟩⟩⟩⟩ <;>
    first
      | exact ⟨_, _, _, _, _, _, rfl⟩
      | (simp only [List.length_cons, List.length_nil] at h; omega)

theorem exists_len_four (l : List Nat) (h : l.length = 4) :
    ∃ a b c d, l = [a, b, c, d] := by
  rcases l with _ | ⟨a, _ | ⟨b, _ | ⟨c, _ | ⟨d, _ | ⟨e, t⟩⟩⟩⟩⟩ <;>
    first
      | exact ⟨_, _, _, _, rfl⟩
      | (simp only [List.length_cons, List.length_nil] at h; omega)

/-- The §8 end-to-end example frame: sender `11:22:33:44:55:66` /
`172.16.60.157` asking for `172.16.60.250`, used as concrete test input. -/
def testRequest : arp_packet :=
  { ethhdr :=
      { h_dest := [0xff, 0xff, 0xff, 0xff, 0xff, 0xff]
        h_source := [0x11, 0x22, 0x33, 0x44, 0x55, 0x66]
        h_proto := ETH_P_ARP }
    arphdr :=
      { arp_hd := ARPHRD_ETHER
        arp_pr := ETH_P_IP
        arp_hdl := 6
        arp_prl := 4
        arp_op := ARPOP_REQUEST
        arp_sha := [0x11, 0x22, 0x33, 0x44, 0x55, 0x66]
        arp_spa := [172, 16, 60, 157]
        arp_dha := [0, 0, 0, 0, 0, 0]
        arp_dpa := [172, 16, 60, 250] } }

/-- The §8 local identity hardware address `AA:BB:CC:DD:EE:FF`. -/
def testMac : List Nat := [0xaa, 0xbb, 0xcc, 0xdd, 0xee, 0xff]

/-! ## Claim theorems -/

/-- C1: for every incoming ARP request frame with sender hardware address
`SH` (= `arp_sha`), sender protocol address `SP` (= `arp_spa`), target
protocol address `TP` (= `arp_dpa`), and local identity hardware address
`LH` (= `mac`), the reply synthesized by the responder has Ethernet
source `LH`, Ethernet destination `SH`, ARP opcode = reply (2), ARP sender
hardware address `LH`, ARP sender protocol address `TP`, ARP target
hardware address `SH`, and ARP target protocol address `SP`. -/
theorem responder_reply_fields (mac : List Nat) (req : arp_packet) :
    (craft_reply mac req).ethhdr.h_source = mac ∧
    (craft_reply mac req).ethhdr.h_dest = req.arphdr.arp_sha ∧
    (craft_reply mac req).arphdr.arp_op = ARPOP_REPLY ∧
    (craft_reply mac req).arphdr.arp_sha = mac ∧
    (craft_reply mac req).arphdr.arp_spa = req.arphdr.arp_dpa ∧
    (craft_reply mac req).arphdr.arp_dha = req.arphdr.arp_sha ∧
    (craft_reply mac req).arphdr.arp_dpa = req.arphdr.arp_spa :=
  ⟨rfl, rfl, rfl, rfl, rfl, rfl, rfl⟩

/-- C2: the responder's decision to reply depends only on the Ethernet
protocol field (bytes 12-13) of the received buffer: every buffer carrying
the ARP ethertype gets a synthesized reply (and counter increment),
whatever its ARP opcode; every other buffer is dropped.  The opcode is
never inspected. -/
theorem responder_filters_only_on_ethertype (mac : List Nat) (num : Nat)
    (buf : List Nat) :
    wait_n_reply_step mac num buf =
      if readBE16 buf 12 = ETH_P_ARP then
        (num + 1, some (craft_reply mac (decode buf)))
      else (num, none) := by
  by_cases h : readBE16 buf 12 = ETH_P_ARP <;>
    simp [wait_n_reply_step, h]

/-- C3: the single request frame built by the requester has Ethernet
destination six 0xFF bytes, Ethernet source the local hardware address,
ethertype ARP; ARP hardware-address-space = the standard Ethernet
identifier (1), protocol-address-space = the standard IPv4 identifier
(0x0800), hardware length 6, protocol length 4, opcode request (1), sender
hardware/protocol address = local identity (local MAC, configured
DEVICE_IP), target hardware address six 0xFF bytes, and target protocol
address the configured TARGET_IP literal. -/
theorem requester_request_fields (mac : List Nat) :
    (req_n_wait_request mac).ethhdr.h_dest = List.replicate 6 0xff ∧
    (req_n_wait_request mac).ethhdr.h_source = mac ∧
    (req_n_wait_request mac).ethhdr.h_proto = ETH_P_ARP ∧
    (req_n_wait_request mac).arphdr.arp_hd = ARPHRD_ETHER ∧
    (req_n_wait_request mac).arphdr.arp_pr = ETH_P_IP ∧
    (req_n_wait_request mac).arphdr.arp_hdl = 6 ∧
    (req_n_wait_request mac).arphdr.arp_prl = 4 ∧
    (req_n_wait_request mac).arphdr.arp_op = ARPOP_REQUEST ∧
    (req_n_wait_request mac).arphdr.arp_sha = mac ∧
    (req_n_wait_request mac).arphdr.arp_spa = DEVICE_IP ∧
    (req_n_wait_request mac).arphdr.arp_dha = List.replicate 6 0xff ∧
    (req_n_wait_request mac).arphdr.arp_dpa = TARGET_IP :=
  ⟨rfl, rfl, rfl, rfl, rfl, rfl, rfl, rfl, rfl, rfl, rfl, rfl⟩

set_option maxHeartbeats 1000000 in
/-- C4: decoding the byte sequence produced by encoding a well-formed
frame yields the frame back: `decode (encode p) = p`. -/
theorem decode_encode_roundtrip (p : arp_packet) (h : WellFormed p) :
    decode (encode p) = p := by
  rcases p with ⟨⟨d, s, pr⟩, q1, q2, q3, q4, q5, sha, spa, dha, dpa⟩
  unfold WellFormed at h
  dsimp only at h
  obtain ⟨hd6, -, hs6, -, -, -, -, -, -, -, hsha6, -, hspa4, -, hdha6, -, hdpa4, -⟩ := h
  obtain ⟨a1, a2, a3, a4, a5, a6, rfl⟩ := exists_len_six _ hd6
  obtain ⟨b1, b2, b3, b4, b5, b6, rfl⟩ := exists_len_six _ hs6
  obtain ⟨c1, c2, c3, c4, c5, c6, rfl⟩ := exists_len_six _ hsha6
  obtain ⟨e1, e2, e3, e4, e5, e6, rfl⟩ := exists_len_six _ hdha6
  obtain ⟨f1, f2, f3, f4, rfl⟩ := exists_len_four _ hspa4
  obtain ⟨g1, g2, g3, g4, rfl⟩ := exists_len_four _ hdpa4
  conv_rhs =>
    rw [← Nat.div_add_mod pr 256, ← Nat.div_add_mod q1 256,
      ← Nat.div_add_mod q2 256, ← Nat.div_add_mod q5 256]
  rfl

/-- C5: a received frame whose Ethernet protocol field is not the ARP
identifier produces no reply and no state change: the loop iteration that
reads it is a no-op (same counter, no frame written, run continues as if
the event had not happened), and the per-step function drops it. -/
theorem responder_drops_non_arp (mac : List Nat) (num : Nat)
    (buf : List Nat) (sOk : Bool) (rest : List TraceEv)
    (h : readBE16 buf 12 ≠ ETH_P_ARP) :
    wait_n_reply_run mac num (TraceEv.recvOk buf sOk :: rest) =
      wait_n_reply_run mac num rest ∧
    wait_n_reply_step mac num buf = (num, none) := by
  constructor
  · simp [wait_n_reply_run, h]
  · simp [wait_n_reply_step, h]

/-- C9: the responder's reply is identical to the incoming frame in every
field it does not explicitly rewrite: ethertype, hardware-address-space
id, protocol-address-space id, hardware-address length and
protocol-address length are copied from the request unchanged, whatever
values the request carried. -/
theorem responder_preserves_copied_fields (mac : List Nat) (req : arp_packet) :
    (craft_reply mac req).ethhdr.h_proto = req.ethhdr.h_proto ∧
    (craft_reply mac req).arphdr.arp_hd = req.arphdr.arp_hd ∧
    (craft_reply mac req).arphdr.arp_pr = req.arphdr.arp_pr ∧
    (craft_reply mac req).arphdr.arp_hdl = req.arphdr.arp_hdl ∧
    (craft_reply mac req).arphdr.arp_prl = req.arphdr.arp_prl :=
  ⟨rfl, rfl, rfl, rfl, rfl⟩

/-- C4 witness: the round trip evaluated on the §8 example frame. -/
theorem decode_encode_roundtrip_witness :
    WellFormed testRequest ∧ decode (encode testRequest) = testRequest :=
  ⟨by decide, decode_encode_roundtrip testRequest (by decide)⟩

/-- A non-ARP (IPv4, ethertype 0x0800) 42-byte buffer. -/
def ipv4Buf : List Nat :=
  List.replicate 12 0 ++ [0x08, 0x00] ++ List.replicate 28 0

/-- An ARP-ethertype frame whose opcode is 3 — neither request nor
reply. -/
def weirdOpFrame : arp_packet :=
  { testRequest with arphdr := { testRequest.arphdr with arp_op := 3 } }

/-- A truncated read: only the 14 Ethernet-header bytes (ethertype ARP)
were actually received. -/
def truncatedData : List Nat :=
  [0, 0, 0, 0, 0, 0, 0x11, 0x22, 0x33, 0x44, 0x55, 0x66, 0x08, 0x06]

/-- The bytes of the 1500-byte stack buffer beyond the received data,
which `read` never wrote: modelled as whatever happened to be there (a
concrete arbitrary choice suffices, since the code never looks at the
received length). -/
def stackGarbage : List Nat := List.replicate 28 0

/-- Run exits of the responder are never `normal`: the loop has no normal
exit (only `ASSERT` death, or still running when the trace ends). -/
theorem wait_n_reply_run_ne_normal (mac : List Nat) (num : Nat)
    (evs : List TraceEv) :
    (wait_n_reply_run mac num evs).2.2 ≠ ExitStatus.normal := by
  induction evs generalizing num with
  | nil => simp [wait_n_reply_run]
  | cons ev rest ih =>
    cases ev with
    | recvErr => simp [wait_n_reply_run]
    | recvOk buf sOk =>
      by_cases h : readBE16 buf 12 = ETH_P_ARP
      · cases sOk
        · simp [wait_n_reply_run, h]
        · simp only [wait_n_reply_run, h]
          simpa using ih (num + 1)
      · simpa [wait_n_reply_run, h] using ih num

/-- If the requester wait loop exits normally, it accepted a frame. -/
theorem req_n_wait_loop_normal_accepts (recvs : List RecvResult)
    (h : (req_n_wait_loop recvs).2 = ExitStatus.normal) :
    (req_n_wait_loop recvs).1.isSome := by
  induction recvs with
  | nil => simp [req_n_wait_loop] at h
  | cons r rest ih =>
    cases r with
    | err => simp [req_n_wait_loop] at h
    | ok buf =>
      by_cases hb : readBE16 buf 12 = ETH_P_ARP
      · simp [req_n_wait_loop, hb]
      · simp only [req_n_wait_loop, hb, ne_eq, not_false_iff, if_pos] at h ⊢
        exact ih h

/-- C6: the claim says an undersized received byte sequence is discarded
without being reinterpreted as a Frame.  The code has no length check: a
14-byte read whose ethertype bytes say ARP is still cast to
`struct arp_packet` — the ARP fields are read from never-written stack
bytes — the counter is bumped and a reply synthesized from that garbage
is written back.  This theorem evaluates the code at that failing
input. -/
theorem truncated_read_still_reinterpreted :
    truncatedData.length < FRAME_SIZE ∧
    wait_n_reply_step testMac 0 (truncatedData ++ stackGarbage) =
      (1, some (craft_reply testMac (decode (truncatedData ++ stackGarbage)))) ∧
    (wait_n_reply_step testMac 0 (truncatedData ++ stackGarbage)).2 ≠ none := by
  refine ⟨by decide, by decide, by decide⟩

/-- C7: every transport-level failure is immediately fatal with exit code
1 and the name of the failing operation, and nothing further happens: a
failed `/dev/net/tun` open, `TUNSETIFF`, or `SIOCGIFHWADDR` stops `main`
before any engine step; a failed `read` or `write` in either engine stops
it with the rest of its trace ignored — no retry, no further frames. -/
theorem transport_failures_fatal :
    (∀ (s h : Bool) (mac : List Nat) (tr : EngineTrace),
      main_run false s h mac tr = ([], ExitStatus.fatal 1 "tap open")) ∧
    (∀ (h : Bool) (mac : List Nat) (tr : EngineTrace),
      main_run true false h mac tr = ([], ExitStatus.fatal 1 "tap ioctl")) ∧
    (∀ (mac : List Nat) (tr : EngineTrace),
      main_run true true false mac tr = ([], ExitStatus.fatal 1 "tap hwaddr")) ∧
    (∀ (mac : List Nat) (num : Nat) (rest : List TraceEv),
      wait_n_reply_run mac num (TraceEv.recvErr :: rest) =
        ([], num, ExitStatus.fatal 1 "read packet")) ∧
    (∀ (mac : List Nat) (num : Nat) (buf : List Nat) (rest : List TraceEv),
      readBE16 buf 12 = ETH_P_ARP →
      wait_n_reply_run mac num (TraceEv.recvOk buf false :: rest) =
        ([craft_reply mac (decode buf)], num + 1,
          ExitStatus.fatal 1 "write packet")) ∧
    (∀ (mac : List Nat) (recvs : List RecvResult),
      req_n_wait_run mac false recvs =
        ⟨[req_n_wait_request mac], none, ExitStatus.fatal 1 "write packet"⟩) ∧
    (∀ (rest : List RecvResult),
      req_n_wait_loop (RecvResult.err :: rest) =
        (none, ExitStatus.fatal 1 "read packet")) ∧
    (1 : Nat) ≠ 0 := by
  refine ⟨fun s h mac tr => rfl, fun h mac tr => rfl, fun mac tr => rfl,
    fun mac num rest => rfl, fun mac num buf rest hb => ?_,
    fun mac recvs => rfl, fun rest => rfl, one_ne_zero⟩
  simp [wait_n_reply_run, hb]

/-- C7 witness: a `write` failure while replying to the §8 example
request dies with "write packet" after that one attempted frame. -/
theorem transport_failures_fatal_witness :
    readBE16 (encode testRequest) 12 = ETH_P_ARP ∧
    wait_n_reply_run testMac 0 [TraceEv.recvOk (encode testRequest) false] =
      ([craft_reply testMac (decode (encode testRequest))], 1,
        ExitStatus.fatal 1 "write packet") :=
  ⟨by decide,
    transport_failures_fatal.2.2.2.2.1 testMac 0 (encode testRequest) []
      (by decide)⟩

/-- C8: in requester mode, after the request is sent the engine discards
every received frame whose ethertype is not ARP and returns normally on
the first ARP-ethertype frame, decoding it with no opcode or address
check (any later events are never reached); and this is the program's
only normal-termination path: a responder-mode run never exits normally,
and a requester-mode run exits normally only by accepting such a
frame. -/
theorem requester_first_arp_terminates :
    (∀ (mac : List Nat) (pre : List (List Nat)) (buf : List Nat)
        (post : List RecvResult),
      (∀ b ∈ pre, readBE16 b 12 ≠ ETH_P_ARP) →
      readBE16 buf 12 = ETH_P_ARP →
      req_n_wait_run mac true
          (pre.map RecvResult.ok ++ RecvResult.ok buf :: post) =
        ⟨[req_n_wait_request mac], some (decode buf), ExitStatus.normal⟩) ∧
    (∀ (o s h : Bool) (mac : List Nat) (evs : List TraceEv),
      (main_run o s h mac (EngineTrace.responder evs)).2 ≠
        ExitStatus.normal) ∧
    (∀ (o s h : Bool) (mac : List Nat) (sOk : Bool)
        (recvs : List RecvResult),
      (main_run o s h mac (EngineTrace.requester sOk recvs)).2 =
        ExitStatus.normal →
      (req_n_wait_run mac sOk recvs).accepted.isSome) := by
  refine ⟨?_, ?_, ?_⟩
  · intro mac pre buf post hpre harp
    simp only [req_n_wait_run, if_pos]
    have hloop : ∀ (l : List (List Nat)), (∀ b ∈ l, readBE16 b 12 ≠ ETH_P_ARP) →
        req_n_wait_loop (l.map RecvResult.ok ++ RecvResult.ok buf :: post) =
          (some (decode buf), ExitStatus.normal) := by
      intro l
      induction l with
      | nil => intro _; simp [req_n_wait_loop, harp]
      | cons b rest ih =>
        intro hl
        have hb := hl b (List.mem_cons_self b rest)
        simp only [List.map_cons, List.cons_append, req_n_wait_loop, hb,
          ne_eq, not_false_iff, if_pos]
        exact ih fun x hx => hl x (List.mem_cons_of_mem b hx)
    rw [hloop pre hpre]
  · intro o s h mac evs
    cases o <;> cases s <;> cases h <;>
      simp [main_run, wait_n_reply_run_ne_normal]
  · intro o s h mac sOk recvs hnorm
    cases o <;> cases s <;> cases h <;> simp [main_run] at hnorm ⊢
    cases sOk with
    | false => simp [req_n_wait_run] at hnorm
    | true =>
      simp only [req_n_wait_run, if_pos] at hnorm ⊢
      exact req_n_wait_loop_normal_accepts recvs hnorm

/-- C8 witness: after one discarded IPv4 frame, an ARP frame with opcode
3 (neither request nor reply) and a sender that does not match the
outstanding query is decoded and accepted, ending the run normally. -/
theorem requester_first_arp_terminates_witness :
    (∀ b ∈ [ipv4Buf], readBE16 b 12 ≠ ETH_P_ARP) ∧
    readBE16 (encode weirdOpFrame) 12 = ETH_P_ARP ∧
    req_n_wait_run testMac true
        ([ipv4Buf].map RecvResult.ok ++
          RecvResult.ok (encode weirdOpFrame) :: []) =
      ⟨[req_n_wait_request testMac], some (decode (encode weirdOpFrame)),
        ExitStatus.normal⟩ :=
  ⟨by decide, by decide,
    requester_first_arp_terminates.1 testMac [ipv4Buf]
      (encode weirdOpFrame) [] (by decide) (by decide)⟩

/-- C10: every requester run passes exactly one frame to `write` — the
initial broadcast request, written before the wait loop — no matter what
the wait loop receives; the loop itself never writes. -/
theorem requester_sends_exactly_one (mac : List Nat) (sendOk : Bool)
    (recvs : List RecvResult) :
    (req_n_wait_run mac sendOk recvs).sent = [req_n_wait_request mac] ∧
    (req_n_wait_run mac sendOk recvs).sent.length = 1 := by
  cases sendOk <;> simp [req_n_wait_run]

/-- C5 witness: a received IPv4 frame (ethertype 0x0800) is dropped. -/
theorem responder_drops_non_arp_witness :
    readBE16 (List.replicate 12 0 ++ [0x08, 0x00]) 12 ≠ ETH_P_ARP ∧
    (wait_n_reply_run testMac 7
        [TraceEv.recvOk (List.replicate 12 0 ++ [0x08, 0x00]) true] =
      wait_n_reply_run testMac 7 [] ∧
    wait_n_reply_step testMac 7 (List.replicate 12 0 ++ [0x08, 0x00]) =
      (7, none)) :=
  ⟨by decide,
    responder_drops_non_arp testMac 7 (List.replicate 12 0 ++ [0x08, 0x00])
      true [] (by decide)⟩

end ArpTap
